import Mathlib

/-
Verification development for the AI interviewer repository.

The interview-room controller (React component), the browser transcription
service and the scoring API route are shallowly embedded below.  Text is
modelled as a list of characters (`Str`); JavaScript string helpers
(`split`, `join`, `trim`, `includes`, `replace`, `toLowerCase`, ...) are
reimplemented on that type, matching the JS semantics for the ASCII inputs
the application deals with.  JavaScript numbers are modelled as `ℚ` / `ℤ`
(exact arithmetic); the one place where the code can produce `NaN`
(a 0/0 division in the communication sub-score) is modelled with `Option`.
-/

/-- Character-list model of JavaScript strings. -/
abbrev Str := List Char

/-- JS `s.toLowerCase()` (ASCII range, which is all the code relies on). -/
def toLowerStr (s : Str) : Str := s.map Char.toLower

/-- Whitespace test used by JS `\s` and `trim` (ASCII subset). -/
def isWsChar (c : Char) : Bool := c = ' ' || c = '\t' || c = '\n' || c = '\r'

/-- JS `s.trim()`. -/
def trimStr (s : Str) : Str :=
  ((s.dropWhile isWsChar).reverse.dropWhile isWsChar).reverse

/-- Prepend a character to the first segment of a split result. -/
def consHead (c : Char) : List Str → List Str
  | []      => [[c]]
  | w :: ws => (c :: w) :: ws

/-- JS `s.split(' ')`: split on each single space character. -/
def splitOnSpace : Str → List Str
  | []        => [[]]
  | c :: rest => if c = ' ' then [] :: splitOnSpace rest else consHead c (splitOnSpace rest)

/-- Helper for `splitWs`; `inRun` records whether the previous character was
whitespace (a separator run already open). -/
def splitWsAux (inRun : Bool) : Str → List Str
  | []        => [[]]
  | c :: rest =>
    if isWsChar c then
      if inRun then splitWsAux true rest else [] :: splitWsAux true rest
    else consHead c (splitWsAux false rest)

/-- JS `s.split(/\s+/)`: split on maximal runs of whitespace (a leading or
trailing run contributes an empty segment, as in JS). -/
def splitWs (s : Str) : List Str := splitWsAux false s

/-- JS `array.join(' ')`. -/
def joinSpace : List Str → Str
  | []      => []
  | [w]     => w
  | w :: ws => w ++ ' ' :: joinSpace ws

/-- JS `hay.includes(needle)`. -/
def isSubstr : Str → Str → Bool
  | n, []        => n.isEmpty
  | n, c :: rest => n.isPrefixOf (c :: rest) || isSubstr n rest

/-- Loop `for i in 0..len-2` testing a property of adjacent element pairs. -/
def anyAdjacentPair (p : Str → Str → Bool) : List Str → Bool
  | a :: b :: rest => p a b || anyAdjacentPair p (b :: rest)
  | _              => false

/-- Punctuation class of the echo detectors: `[.,!?;:]`. -/
def isPunctChar (c : Char) : Bool :=
  c = '.' || c = ',' || c = '!' || c = '?' || c = ';' || c = ':'

/-- JS `w.replace(/[.,!?;:]/g, '')`. -/
def stripPunct (w : Str) : Str := w.filter (fun c => !isPunctChar c)

/-- Helper for `dedupAdj`; `prev` is the previous element of the ORIGINAL
array (the JS filter compares `words[index]` with `words[index - 1]`). -/
def dedupAdjAux (prev : Str) : List Str → List Str
  | []        => []
  | w :: rest => if w = prev then dedupAdjAux prev rest else w :: dedupAdjAux w rest

/-- The `withoutSingleRepeats` filter of `removeStuttering`: drop a word when
it equals its immediate predecessor in the original array. -/
def dedupAdj : List Str → List Str
  | []        => []
  | w :: rest => w :: dedupAdjAux w rest

/-- Fuel-indexed version of the 2- and 3-word phrase-repetition scan loop of
`removeStuttering` (part_003 lines 1321-1359).  `last` is the most recently
pushed word (`result[result.length - 1]`; `none` while `i = 0`).  Phrase
comparison is the JS `[..].join(' ')` string equality.  The index jumps
`i += 3` and `i += 5` followed by the `for` increment are the drops to
`rest4` and `rest6`.  Fuel only forces structural recursion: each step
consumes at least one list element, so fuel `≥ length` never runs out. -/
def scanLoopFuel : ℕ → Option Str → List Str → List Str
  | _, _, [] => []
  | 0, _, l => l
  | fuel + 1, last, w :: rest =>
    if last = some w then scanLoopFuel fuel last rest
    else
      match rest with
      | w1 :: w2 :: w3 :: rest4 =>
        if w ++ ' ' :: w1 = w2 ++ ' ' :: w3 then
          w :: w1 :: scanLoopFuel fuel (some w1) rest4
        else
          match rest4 with
          | w4 :: w5 :: rest6 =>
            if w ++ ' ' :: (w1 ++ ' ' :: w2) = w3 ++ ' ' :: (w4 ++ ' ' :: w5) then
              w :: w1 :: w2 :: scanLoopFuel fuel (some w2) rest6
            else
              w :: scanLoopFuel fuel (some w) rest
          | _ => w :: scanLoopFuel fuel (some w) rest
      | _ => w :: scanLoopFuel fuel (some w) rest

/-- The phrase-repetition scan loop, run with enough fuel for its input. -/
def scanLoop (last : Option Str) (l : List Str) : List Str :=
  scanLoopFuel l.length last l

/-- The utterance normalizer `removeStuttering` (part_003 lines 1307-1364).
Empty input has length 0 < 5, so the JS `!text ||` guard is subsumed by the
length test.  The returned string is the uppercased first character of the
ORIGINAL text followed by the normalized text minus its first character
(`text.charAt(0).toUpperCase() + normalizedText.slice(1)`). -/
def removeStuttering (text : Str) : Str :=
  if text.length < 5 then text
  else
    match text with
    | [] => []
    | c :: _ =>
      Char.toUpper c ::
        (joinSpace (scanLoop none (dedupAdj (splitOnSpace (toLowerStr text))))).drop 1

/-! ### Echo detection (BrowserTranscriptionService.isEchoLikely, part_007) -/

/-- Row update of the Levenshtein dynamic program (part_007 lines 392-410).
`xs` are the remaining characters of `str1`, `ps` the remaining entries of
the previous row (aligned so its head is `matrix[j-1][i]`), `diag` is
`matrix[j-1][i-1]` and `left` is `matrix[j][i-1]`. -/
def levRowAux (c : Char) : List Char → List ℕ → ℕ → ℕ → List ℕ
  | [], _, _, _ => []
  | _ :: _, [], _, _ => []
  | x :: xs, p :: ps, diag, left =>
    let v := min (left + 1) (min (p + 1) (diag + (if x = c then 0 else 1)))
    v :: levRowAux c xs ps p v

/-- One full row step: `cur[0] = prev[0] + 1`, then `levRowAux` across. -/
def levNextRow (str1 : Str) (prev : List ℕ) (c : Char) : List ℕ :=
  (prev.headD 0 + 1) :: levRowAux c str1 prev.tail (prev.headD 0) (prev.headD 0 + 1)

/-- The `levenshteinDistance` dynamic program of part_007: row 0 is
`0, 1, ..., str1.length`; one row is computed per character of `str2`; the
answer is the last entry of the last row. -/
def levDistance (str1 str2 : Str) : ℕ :=
  (str2.foldl (levNextRow str1) (List.range (str1.length + 1))).getLastD 0

/-- The `calculateSimilarity` helper of part_007 (lines 381-389): longer and
shorter string by length, `1` for two empty strings, otherwise
`(longer.length - editDistance) / longer.length`. -/
def calculateSimilarity (str1 str2 : Str) : ℚ :=
  let longer := if str2.length < str1.length then str1 else str2
  let shorter := if str2.length < str1.length then str2 else str1
  if longer.length = 0 then 1
  else ((longer.length : ℚ) - levDistance longer shorter) / longer.length

/-- Executable form of the JS test `calculateSimilarity(str1, str2) > 0.8`.
Division by the positive `longer.length` is cross-multiplied into the
integers so the kernel can evaluate it; `similarityExceeds_iff` below
proves it equal to the rational comparison. -/
def similarityExceeds (str1 str2 : Str) : Bool :=
  let longer := if str2.length < str1.length then str1 else str2
  let shorter := if str2.length < str1.length then str2 else str1
  if longer.length = 0 then true
  else decide (4 * (longer.length : ℤ) <
    5 * ((longer.length : ℤ) - levDistance longer shorter))

/-- Tokenization of `isEchoLikely`: lower-case the whole text, strip
punctuation from the whole text, split on whitespace runs, keep tokens of
length `> 2` (part_007 lines 333-341). -/
def echoTokens (t : Str) : List Str :=
  (splitWs (stripPunct (toLowerStr t))).filter (fun w => 2 < w.length)

/-- Fuzzy token match of `isEchoLikely` (part_007 lines 346-351): substring
containment either way, or similarity above `0.8`. -/
def echoWordMatches (aiWords : List Str) (w : Str) : Bool :=
  aiWords.any (fun a => isSubstr w a || isSubstr a w || similarityExceeds w a)

/-- The `matchRatio` of `isEchoLikely` (part_007 line 353): fraction of
candidate tokens fuzzily present among the Agent tokens (`0` when the
candidate has no tokens, where the code accepts before dividing). -/
def matchRatio007 (lastAiText transcript : Str) : ℚ :=
  let aiWords := echoTokens lastAiText
  let tWords := echoTokens transcript
  if tWords.isEmpty then 0
  else ((tWords.filter (echoWordMatches aiWords)).length : ℚ) / tWords.length

/-- The echo classifier `BrowserTranscriptionService.isEchoLikely`
(part_007 lines 317-378).  `timeSince` is `Date.now() - aiSpeechEndTime`
in milliseconds, passed explicitly.  `true` means the utterance is
rejected as echo; every early `return false` is an accept. -/
def isEchoLikely (lastAiText : Str) (echoPreventionEnabled : Bool)
    (timeSince : ℤ) (transcript : Str) : Bool :=
  if lastAiText.isEmpty || !echoPreventionEnabled then false
  else if 3000 < timeSince then false
  else
    let aiWords := echoTokens lastAiText
    let tWords := echoTokens transcript
    if tWords.isEmpty then false
    else
      let matching := tWords.filter (echoWordMatches aiWords)
      let hasSeq := anyAdjacentPair
        (fun a b => isSubstr (a ++ ' ' :: b) (toLowerStr lastAiText)) tWords
      -- The four JS criteria on `matchRatio = matching.length / tWords.length`;
      -- the comparisons with 0.6, 0.3 and 0.5 are cross-multiplied by the
      -- positive `tWords.length` (see `matchRatio007_criteria_iff`).
      decide (3 * tWords.length < 5 * matching.length) ||
        (hasSeq && decide (3 * tWords.length < 10 * matching.length)) ||
        (decide (3 < matching.length) && decide (tWords.length < 5)) ||
        (decide (timeSince < 1000) && decide (tWords.length < 2 * matching.length))

/-! ### Inline echo detection in speakAiResponse (part_003 lines 570-621) -/

/-- The inline echo detector of the transcription callback installed after
AI speech (part_003 lines 576-618).  It runs only while
`timeSinceResume < 1500`; `true` means the utterance is dropped as echo.
Note the asymmetric tokenization of the source: Agent tokens are length
filtered BEFORE punctuation stripping, candidate tokens are not length
filtered at all, and `matchCount` counts Agent tokens exactly contained in
the candidate token list. -/
def inlineEchoRejects (timeSinceResume : ℤ) (aiLastText newTranscript : Str) : Bool :=
  if timeSinceResume < 1500 then
    let aiWords := ((splitWs (toLowerStr aiLastText)).filter
      (fun w => 2 < w.length)).map stripPunct
    let tWords := (splitWs (toLowerStr newTranscript)).map stripPunct
    let matchCount := (aiWords.filter (fun w => tWords.contains w)).length
    let seq := anyAdjacentPair
      (fun a b => isSubstr (a ++ ' ' :: b) (toLowerStr aiLastText)) tWords
    -- `matchRatio > 0.3` where `matchRatio` is `matchCount / tWords.length`
    -- for a nonempty candidate and `0` otherwise, cross-multiplied by the
    -- positive length.
    decide (1 < matchCount) ||
      (decide (0 < matchCount) && decide (tWords.length < 4)) ||
      (decide (0 < tWords.length) && decide (3 * tWords.length < 10 * matchCount)) ||
      seq
  else false

/-- Modelled from the spec, section 4.2 (the Echo Filter contract the claim
refers to): tokenize both texts by splitting on whitespace, stripping
punctuation and dropping tokens of length at most 2; `matchCount` is the
number of candidate tokens also present among the Agent tokens;
`matchRatio` is `matchCount / candidateTokenCount` (`0` when the candidate
has no tokens). -/
def specEchoMatchRatioQ (agentText candidateText : Str) : ℚ :=
  let agentTokens := ((splitWs agentText).map stripPunct).filter (fun w => 2 < w.length)
  let candTokens := ((splitWs candidateText).map stripPunct).filter (fun w => 2 < w.length)
  if candTokens.isEmpty then 0
  else ((candTokens.filter (fun w => agentTokens.contains w)).length : ℚ) / candTokens.length

/-! ### Completion heuristic (startTranscription callback, part_003 lines 253-335) -/

/-- Closing phrases of the `definitelyComplete` regex, lower-cased
(part_003 line 294). -/
def closingPhrases : List Str :=
  ["thank you".toList, "that\x27s all".toList, "that is all".toList,
   "i\x27m done".toList, "i am done".toList, "that\x27s it".toList,
   "to conclude".toList]

/-- JS `/[.!?]$/.test(t)`: the last character is terminal punctuation. -/
def endsWithTerminalPunct (t : Str) : Bool :=
  match t.getLast? with
  | some c => c = '.' || c = '!' || c = '?'
  | none => false

/-- The `definitelyComplete` test (part_003 lines 293-294): terminal
punctuation at the end, or a case-insensitive closing phrase anywhere. -/
def definitelyComplete (t : Str) : Bool :=
  endsWithTerminalPunct t || closingPhrases.any (fun p => isSubstr p (toLowerStr t))

/-- The `seemsComplete` test (part_003 lines 296-300). -/
def seemsComplete (t : Str) : Bool :=
  decide (25 < t.length) ||
    isSubstr " and ".toList (toLowerStr t) ||
    isSubstr " so ".toList (toLowerStr t) ||
    isSubstr " but ".toList (toLowerStr t) ||
    isSubstr " because ".toList (toLowerStr t)

/-- The reply-timer decision of the completion heuristic (part_003 lines
307-335): given the captured `isAiSpeaking` flag and the normalized
transcript, the scheduled delay in milliseconds, or `none` when no timer is
set. -/
def scheduleDelay (capturedIsAiSpeaking : Bool) (t : Str) : Option ℕ :=
  if capturedIsAiSpeaking then none
  else if definitelyComplete t && decide (10 < t.length) then some 300
  else if seemsComplete t && decide (15 < t.length) then some 800
  else if 10 < t.length then some 1500
  else none

/-- The final-transcript branch of the `startTranscription` callback
(part_003 lines 253-335): ignore transcripts of length `≤ 3`, trim,
normalize, drop exact duplicates of the last processed transcription, then
run the completion heuristic.  The result is the scheduled reply delay. -/
def handleFinalTranscript (capturedIsAiSpeaking : Bool) (lastProcessed : Str)
    (rawTranscript : Str) : Option ℕ :=
  if rawTranscript.length ≤ 3 then none
  else
    let norm := removeStuttering (trimStr rawTranscript)
    if norm = lastProcessed then none
    else scheduleDelay capturedIsAiSpeaking norm

/-! ### Reply-generation outcome on oracle results (generateAIResponse, part_003 lines 386-462) -/

/-- JS truthiness of a string: nonempty. -/
def truthyStr : Option Str → Bool
  | none => false
  | some s => !s.isEmpty

/-- The result of the `fetch` to `/api/ai-response` as seen by
`generateAIResponse`: a network-level failure (rejected promise), a non-OK
HTTP status, or a JSON body with optional `response` and `message`
fields. -/
inductive FetchOutcome where
  | fetchFailure : FetchOutcome
  | notOk (status : ℕ) : FetchOutcome
  | okJson (response message : Option Str) : FetchOutcome

/-- JS `responseData.response || responseData.message || 'AI response received'`
(`||` skips absent fields and empty strings). -/
def aiTextOf (response message : Option Str) : Str :=
  if truthyStr response then response.getD []
  else if truthyStr message then message.getD []
  else "AI response received".toList

/-- Canned fallback reply of `generateAIResponse` (part_003 line 439). -/
def cannedFallbackReply : Str :=
  "I didn\x27t catch that. Could you please elaborate on your answer?".toList

/-- Observable outcome of one `generateAIResponse` call after the guard:
either some text is handed to `speakAiResponse`, or the call lands in the
`catch` block, which resets `isAiSpeaking` and restarts transcription
without speaking anything. -/
inductive GenOutcome where
  | speaks (text : Str) : GenOutcome
  | silentResume : GenOutcome
deriving DecidableEq

/-- Whether an outcome reaches the speech sink at all. -/
def reachesSpeaking : GenOutcome → Bool
  | .speaks _ => true
  | .silentResume => false

/-- The outcome of `generateAIResponse` (part_003 lines 411-462) as a
function of the oracle result.  A fetch failure or a non-OK status throws
(`if (!response.ok) throw`) into the `catch` block: no fallback is spoken.
An OK body is reduced with `aiTextOf`; only a blank (`trim`-empty) text
takes the canned-fallback branch of lines 434-443. -/
def generateAIResponseOutcome : FetchOutcome → GenOutcome
  | .fetchFailure => .silentResume
  | .notOk _ => .silentResume
  | .okJson response message =>
    let aiText := aiTextOf response message
    if (trimStr aiText).isEmpty then .speaks cannedFallbackReply
    else .speaks aiText

/-! ### Guard on concurrent replies (generateAIResponse, part_003 lines 386-404)

The transcription callback passed to `transcriptionService.startTranscription`
and the `generateAIResponse` it invokes are closures created in the render in
which the interview started.  React `useState` values captured by those
closures never change: `setInterviewState` updates the store and triggers a
re-render, but `transcriptionService` keeps the originally registered
callback, whose `interviewState.isAiSpeaking` stays at the value captured at
registration time (`false`).  The model therefore carries both the live
store value and the captured snapshot; the guard reads the snapshot. -/

/-- Runtime state relevant to the reply guard: the live `isAiSpeaking` flag
in the React store, the snapshot captured by the transcription-callback
closure, and the number of oracle (`/api/ai-response`) requests issued. -/
structure GuardRuntime where
  liveIsAiSpeaking : Bool
  capturedIsAiSpeaking : Bool
  oracleCalls : ℕ
deriving DecidableEq

/-- One completion trigger reaching `generateAIResponse` with input
`userInput`: the guard checks the CAPTURED `isAiSpeaking` (part_003 line
389) and the minimal input length (line 395); when it passes, the call
queues `isAiSpeaking := true` into the store and issues one oracle
request. -/
def fireTrigger (rt : GuardRuntime) (userInput : Str) : GuardRuntime :=
  if !rt.capturedIsAiSpeaking && decide (¬ (trimStr userInput).length < 5) then
    { rt with liveIsAiSpeaking := true, oracleCalls := rt.oracleCalls + 1 }
  else rt

/-- A sequence of back-to-back completion triggers. -/
def fireTriggers (rt : GuardRuntime) (inputs : List Str) : GuardRuntime :=
  inputs.foldl fireTrigger rt

/-- Runtime at interview start: nothing in flight, snapshot taken while
`isAiSpeaking` was `false`, no oracle calls yet. -/
def initialGuardRuntime : GuardRuntime :=
  { liveIsAiSpeaking := false, capturedIsAiSpeaking := false, oracleCalls := 0 }

/-! ### Session transcript operations (part_003) -/

/-- Operations that write `interviewState.transcription` while a session is
live: the transcription-callback append (lines 281-285 and 635-639), the
transcription Clear button (line 1209), and the error handler of
`startTranscription` (lines 353-357). -/
inductive TranscriptOp where
  | acceptUtterance (normalized : Str) : TranscriptOp
  | clearClick : TranscriptOp
  | startErrorReset : TranscriptOp

/-- JS `prev.transcription + (prev.transcription ? ' ' : '') + normalizedTranscript`. -/
def appendTranscript (s t : Str) : Str :=
  s ++ (if s.isEmpty then [] else [' ']) ++ t

/-- Effect of each transcript-writing operation on the stored transcript. -/
def applyTranscriptOp (s : Str) : TranscriptOp → Str
  | .acceptUtterance t => appendTranscript s t
  | .clearClick => []
  | .startErrorReset => []

/-! ### Scoring engine (src/app/api/score-interview/route.ts)

The `recommendations` and `aiAnalysis` fields of the route result are pure
template text and an oracle passthrough; no verified claim mentions them and
they are omitted from the embedded result record. -/

/-- One entry of the `emotions` array of `InterviewData`. -/
structure EmotionSample where
  emotion : Str
  score : ℚ
  timestamp : ℚ
deriving DecidableEq

/-- The request payload of the scoring route (`questionIndex` and
`responses` are unused by the scoring code and omitted).  `duration` is in
seconds; every caller passes a nonnegative integral value. -/
structure InterviewData where
  transcription : Str
  emotions : List EmotionSample
  duration : ℤ
deriving DecidableEq

/-- JS `data.transcription.split(' ').filter(word => word.length > 0)`
(an empty `transcription` yields the empty list, like the
`data.transcription ? ... : 0` guards in the route). -/
def wordsOf (t : Str) : List Str :=
  (splitOnSpace t).filter (fun w => !w.isEmpty)

/-- Split on each single sentence-terminator character.  The route splits
on `/[.!?]+/`; splitting on single characters instead only inserts extra
empty segments between consecutive terminators, and those are removed by
the trim filter of `sentencesOf`, so the filtered result is the same. -/
def splitOnSentencePunct : Str → List Str
  | []        => [[]]
  | c :: rest =>
    if c = '.' || c = '!' || c = '?' then [] :: splitOnSentencePunct rest
    else consHead c (splitOnSentencePunct rest)

/-- JS `data.transcription.split(/[.!?]+/).filter(s => s.trim().length > 0)`. -/
def sentencesOf (t : Str) : List Str :=
  (splitOnSentencePunct t).filter (fun s => !(trimStr s).isEmpty)

/-- JS `Math.round` on the exact rational value: floor of `x + 1/2`
(JS rounds half toward positive infinity). -/
def jsRound (x : ℚ) : ℤ := ⌊x + 1/2⌋

/-- Word-count contribution of the communication score (route line 227):
`Math.min(words.length / 200, 1) * 40`. -/
def commWordScoreQ (data : InterviewData) : ℚ :=
  min (((wordsOf data.transcription).length : ℚ) / 200) 1 * 40

/-- Average words per sentence (route line 230). -/
def commAvgWordsQ (data : InterviewData) : ℚ :=
  ((wordsOf data.transcription).length : ℚ) /
    ((max (sentencesOf data.transcription).length 1 : ℕ) : ℚ)

/-- Sentence-structure contribution (route line 231). -/
def commStructureQ (data : InterviewData) : ℚ :=
  if 8 ≤ commAvgWordsQ data ∧ commAvgWordsQ data ≤ 25 then 30 else 15

/-- Lexical-diversity contribution (route lines 234-235): the JS `Set` size
is the number of distinct lower-cased words. -/
def commDiversityQ (data : InterviewData) : ℚ :=
  min ((((wordsOf data.transcription).map toLowerStr).dedup.length : ℚ) /
    ((wordsOf data.transcription).length : ℚ)) 0.8 * 30

/-- The `calculateCommunicationScore` function (route lines 222-238).  For
a transcript with zero words the JS expression `uniqueWords.size /
words.length` is `0 / 0 = NaN`; `NaN` survives `Math.min`, `+` and
`Math.round`, so the function returns `NaN`, modelled as `none`. -/
def calculateCommunicationScore (data : InterviewData) : Option ℤ :=
  if (wordsOf data.transcription).isEmpty then none
  else some (jsRound
    (min (commWordScoreQ data + commStructureQ data + commDiversityQ data) 100))

/-- Labels treated as confident by `calculateConfidenceScore`. -/
def confidentLabels : List Str :=
  ["confident".toList, "happy".toList, "positive".toList, "calm".toList]

/-- Labels treated as nervous by `calculateConfidenceScore`. -/
def nervousLabels : List Str :=
  ["nervous".toList, "worried".toList, "sad".toList, "anxious".toList]

/-- Mean of the emotion scores of a sample list (route line 244). -/
def avgEmotionScoreQ (l : List EmotionSample) : ℚ :=
  (l.map (fun e => e.score)).sum / (l.length : ℚ)

/-- Share of samples whose lower-cased label is in `labels`. -/
def labelFracQ (labels : List Str) (l : List EmotionSample) : ℚ :=
  ((l.filter (fun e => labels.contains (toLowerStr e.emotion))).length : ℚ) /
    (l.length : ℚ)

/-- The `calculateConfidenceScore` function (route lines 240-263). -/
def calculateConfidenceScore (data : InterviewData) : ℤ :=
  if data.emotions.isEmpty then 50
  else jsRound (max (min
    (avgEmotionScoreQ data.emotions * 50 +
      labelFracQ confidentLabels data.emotions * 30 -
      labelFracQ nervousLabels data.emotions * 20) 100) 0)

/-- Technical keyword list of `calculateTechnicalScore` (route lines 269-273). -/
def technicalKeywords : List Str :=
  ["project".toList, "experience".toList, "technology".toList, "system".toList,
   "development".toList, "design".toList, "implementation".toList, "solution".toList,
   "framework".toList, "database".toList, "api".toList, "architecture".toList,
   "algorithm".toList, "optimization".toList, "testing".toList, "deployment".toList,
   "cloud".toList, "security".toList]

/-- Methodology keyword list (route lines 275-278). -/
def methodologyKeywords : List Str :=
  ["agile".toList, "scrum".toList, "waterfall".toList, "ci/cd".toList,
   "devops".toList, "version control".toList, "git".toList, "docker".toList,
   "kubernetes".toList, "microservices".toList, "mvc".toList, "rest".toList]

/-- Soft-skill keyword list (route lines 280-283). -/
def softSkillKeywords : List Str :=
  ["team".toList, "collaboration".toList, "leadership".toList,
   "communication".toList, "problem-solving".toList, "analytical".toList,
   "creative".toList, "innovative".toList, "adaptable".toList, "learning".toList]

/-- Number of keywords of `ks` contained in the text `t`. -/
def keywordHits (ks : List Str) (t : Str) : ℕ :=
  (ks.filter (fun k => isSubstr k t)).length

/-- The `calculateTechnicalScore` function (route lines 265-300).  All
values are integers, so the final `Math.round` is the identity. -/
def calculateTechnicalScore (data : InterviewData) : ℤ :=
  let text := toLowerStr data.transcription
  min (min ((keywordHits technicalKeywords text : ℤ) * 5) 40 +
    min ((keywordHits methodologyKeywords text : ℤ) * 8) 30 +
    min ((keywordHits softSkillKeywords text : ℤ) * 5) 30) 100

/-- Problem-solving indicator list (route lines 305-309). -/
def problemSolvingIndicators : List Str :=
  ["challenge".toList, "problem".toList, "solution".toList, "approach".toList,
   "analyze".toList, "evaluate".toList, "consider".toList, "alternative".toList,
   "option".toList, "strategy".toList, "method".toList, "process".toList,
   "step".toList, "first".toList, "then".toList, "finally".toList,
   "because".toList, "therefore".toList, "result".toList]

/-- Structured-thinking phrase list (route lines 311-314). -/
def structuredThinkingPhrases : List Str :=
  ["first of all".toList, "to begin with".toList, "next".toList,
   "furthermore".toList, "in addition".toList, "on the other hand".toList,
   "however".toList, "therefore".toList, "as a result".toList,
   "in conclusion".toList]

/-- Alternatives of the example-counting regex
`/for example|such as|instance|specifically/g` (route line 327), in
alternation order. -/
def examplePhrases : List Str :=
  ["for example".toList, "such as".toList, "instance".toList,
   "specifically".toList]

/-- Fuel-indexed scan counting non-overlapping leftmost matches of any of
the alternatives, like a global JS regex of plain-text alternatives: at
each position the first alternative that matches is counted and skipped,
otherwise the scan advances one character.  Each step consumes at least one
character, so fuel `≥ length` never runs out (fuel only forces structural
recursion). -/
def countMatchesAnyFuel (alts : List Str) : ℕ → Str → ℕ
  | _, [] => 0
  | 0, _ => 0
  | fuel + 1, c :: rest =>
    match alts.find? (fun a => a.isPrefixOf (c :: rest)) with
    | some a => 1 + countMatchesAnyFuel alts fuel (rest.drop (a.length - 1))
    | none => countMatchesAnyFuel alts fuel rest

/-- Number of matches of a global alternation regex in `t`. -/
def countMatchesAny (alts : List Str) (t : Str) : ℕ :=
  countMatchesAnyFuel alts t.length t

/-- The `calculateProblemSolvingScore` function (route lines 302-331);
integer arithmetic, final `Math.round` is the identity. -/
def calculateProblemSolvingScore (data : InterviewData) : ℤ :=
  let text := toLowerStr data.transcription
  min (min ((keywordHits problemSolvingIndicators text : ℤ) * 4) 50 +
    min ((keywordHits structuredThinkingPhrases text : ℤ) * 8) 30 +
    min ((countMatchesAny examplePhrases text : ℤ) * 10) 20) 100

/-- Population variance of the emotion scores (route line 339). -/
def emotionVarianceQ (l : List EmotionSample) : ℚ :=
  ((l.map (fun e => (e.score - avgEmotionScoreQ l) ^ 2)).sum) / (l.length : ℚ)

/-- Labels treated as positive by `calculateEmotionalIntelligenceScore`. -/
def positiveLabels : List Str :=
  ["happy".toList, "confident".toList, "positive".toList, "calm".toList,
   "focused".toList]

/-- Stability part of the emotional-intelligence score (route line 340):
`Math.max(0, 50 - variance * 100)`. -/
def eiStabilityQ (l : List EmotionSample) : ℚ :=
  max 0 (50 - emotionVarianceQ l * 100)

/-- Positivity part of the emotional-intelligence score (route lines
343-347). -/
def eiPositivityQ (l : List EmotionSample) : ℚ :=
  labelFracQ positiveLabels l * 50

/-- The `calculateEmotionalIntelligenceScore` function (route lines
333-350). -/
def calculateEmotionalIntelligenceScore (data : InterviewData) : ℤ :=
  if data.emotions.isEmpty then 50
  else jsRound (eiStabilityQ data.emotions + eiPositivityQ data.emotions)

/-- JS word-character class `\w` = `[A-Za-z0-9_]`. -/
def isWordChar (c : Char) : Bool := c.isAlphanum || c = '_'

/-- JS `word.toLowerCase().replace(/[^\w]/g, '')`. -/
def cleanWord (w : Str) : Str := (toLowerStr w).filter isWordChar

/-- Filler-word list of `calculateArticulationScore` (route line 359); the
two-word entry can never equal a single cleaned word, as in the source. -/
def fillerWords : List Str :=
  ["um".toList, "uh".toList, "like".toList, "you know".toList,
   "basically".toList, "actually".toList, "literally".toList]

/-- Number of words whose cleaned form is a filler word (route lines 360-362). -/
def fillerCountN (ws : List Str) : ℕ :=
  (ws.filter (fun w => fillerWords.contains (cleanWord w))).length

/-- Number of distinct cleaned words used more than 3 times (route lines
366-372). -/
def repeatedWordsN (ws : List Str) : ℕ :=
  (((ws.map cleanWord).dedup).filter (fun w => 3 < (ws.map cleanWord).count w)).length

/-- Filler penalty (route line 363). -/
def artFillerPenaltyQ (ws : List Str) : ℚ :=
  min (((fillerCountN ws : ℚ) / (ws.length : ℚ)) * 100) 40

/-- Repetition penalty (route line 373). -/
def artRepPenaltyQ (ws : List Str) : ℚ :=
  min ((repeatedWordsN ws : ℚ) * 5) 20

/-- The `calculateArticulationScore` function (route lines 352-379). -/
def calculateArticulationScore (data : InterviewData) : ℤ :=
  let ws := wordsOf data.transcription
  if ws.isEmpty then 0
  else jsRound (max (80 - artFillerPenaltyQ ws - artRepPenaltyQ ws) 0)

/-- The four hiring tiers of the route. -/
inductive HiringRec where
  | STRONG_HIRE : HiringRec
  | HIRE : HiringRec
  | LEAN_HIRE : HiringRec
  | NO_HIRE : HiringRec
deriving DecidableEq

/-- The `getHiringRecommendation` function (route lines 452-457); the
`data` argument of the source is unused and dropped. -/
def getHiringRecommendation (score : ℤ) : HiringRec :=
  if 85 ≤ score then .STRONG_HIRE
  else if 70 ≤ score then .HIRE
  else if 55 ≤ score then .LEAN_HIRE
  else .NO_HIRE

/-- Rank of a hiring tier, for stating monotonicity (NO_HIRE lowest). -/
def recTierValue : HiringRec → ℕ
  | .NO_HIRE => 0
  | .LEAN_HIRE => 1
  | .HIRE => 2
  | .STRONG_HIRE => 3

/-- The `generateInsights` function (route lines 381-413), as a function of
the sub-scores it reads and the duration.  A `NaN` communication score
(`none`) fails both JS `>=` comparisons and lands in the final `else`
branch. -/
def generateInsights (commS : Option ℤ) (confS techS : ℤ) (duration : ℤ) : List Str :=
  (match commS with
    | some c =>
      if 80 ≤ c then
        "Excellent communication skills demonstrated with clear, well-structured responses".toList
      else if 60 ≤ c then
        "Good communication with room for more detailed explanations".toList
      else
        "Communication could be improved with more structured and detailed responses".toList
    | none =>
      "Communication could be improved with more structured and detailed responses".toList) ::
  (if 80 ≤ confS then
      "High confidence level maintained throughout the interview".toList
    else if 60 ≤ confS then
      "Moderate confidence with some nervousness detected".toList
    else
      "Low confidence detected - consider additional preparation and practice".toList) ::
  (if 70 ≤ techS then
      "Strong technical vocabulary and industry knowledge demonstrated".toList
    else
      "Technical knowledge could be enhanced with more specific examples and terminology".toList) ::
  (if duration < 180 then
      ["Interview responses were brief - consider providing more detailed examples".toList]
    else if 600 < duration then
      ["Responses were comprehensive - ensure to stay concise and focused".toList]
    else [])

/-- The six sub-scores of the result; `communication` is `none` when the JS
value is `NaN`. -/
structure ScoreBreakdown where
  communication : Option ℤ
  confidence : ℤ
  technicalKnowledge : ℤ
  problemSolving : ℤ
  emotionalIntelligence : ℤ
  articulation : ℤ
deriving DecidableEq

/-- The scoring-route result (verified fields). -/
structure ScoringResult where
  overallScore : Option ℤ
  breakdown : ScoreBreakdown
  insights : List Str
  hiringRecommendation : HiringRec
deriving DecidableEq

/-- Decimal digits of a natural number, for the templated fallback
insights. -/
def natStr (n : ℕ) : Str := (toString n).toList

/-- Decimal form of an integer. -/
def intStr (i : ℤ) : Str := (toString i).toList

/-- The `getFallbackScoring` function (route lines 470-525).  With no words
and no emotion samples it returns the all-zero snapshot with the explicit
no-data insight; otherwise it builds the templated partial scoring of lines
497-524 (none of those insights is the empty string, so the JS
`.filter(insight => insight !== "")` keeps all three). -/
def getFallbackScoring (data : InterviewData) : ScoringResult :=
  let wordCount := (wordsOf data.transcription).length
  let avgEmotion : ℚ :=
    if data.emotions.isEmpty then 0 else avgEmotionScoreQ data.emotions
  if wordCount = 0 ∧ data.emotions.isEmpty then
    { overallScore := some 0
      breakdown :=
        { communication := some 0, confidence := 0, technicalKnowledge := 0,
          problemSolving := 0, emotionalIntelligence := 0, articulation := 0 }
      insights := ["No interview data available for analysis".toList]
      hiringRecommendation := .NO_HIRE }
  else
    let baseScoreQ : ℚ :=
      min ((wordCount : ℚ) / 200 * 30 + avgEmotion * 40 +
        (data.duration : ℚ) / 600 * 30) 100
    { overallScore := some (jsRound (max 0 baseScoreQ))
      breakdown :=
        { communication := some (jsRound (max 0 ((wordCount : ℚ) / 150 * 100)))
          confidence := jsRound (avgEmotion * 100)
          technicalKnowledge := 0
          problemSolving := 0
          emotionalIntelligence := jsRound (avgEmotion * 100)
          articulation := if 50 < wordCount then jsRound ((wordCount : ℚ) / 200 * 100) else 0 }
      insights :=
        [(if 0 < wordCount then natStr wordCount ++ " words captured during interview".toList
          else "No speech detected".toList),
         (if !data.emotions.isEmpty then
            natStr data.emotions.length ++ " emotion data points collected".toList
          else "No emotion data captured".toList),
         (if 0 < data.duration then
            "Interview duration: ".toList ++ intStr (Int.fdiv data.duration 60) ++
              "m ".toList ++ intStr (Int.emod data.duration 60) ++ "s".toList
          else "No duration recorded".toList)]
      hiringRecommendation :=
        if 70 ≤ baseScoreQ then .HIRE else if 40 ≤ baseScoreQ then .LEAN_HIRE
        else .NO_HIRE }

/-- The `generateDynamicScore` function (route lines 91-158) in its
exception-free behaviour: the no-meaningful-data guard of lines 94-101
dispatches to the fallback; otherwise the six sub-scores are combined with
the fixed weights of lines 115-122.  A `NaN` communication score makes the
weighted sum `NaN` (`none`), and `NaN` fails every `>=` in
`getHiringRecommendation`, giving NO_HIRE. -/
def generateDynamicScore (data : InterviewData) : ScoringResult :=
  if (wordsOf data.transcription).isEmpty ∧ data.emotions.isEmpty then
    getFallbackScoring data
  else
    let commS := calculateCommunicationScore data
    let confS := calculateConfidenceScore data
    let techS := calculateTechnicalScore data
    let psS := calculateProblemSolvingScore data
    let eiS := calculateEmotionalIntelligenceScore data
    let artS := calculateArticulationScore data
    let overall : Option ℤ := commS.map (fun c =>
      jsRound ((c : ℚ) * 0.25 + (confS : ℚ) * 0.20 + (techS : ℚ) * 0.20 +
        (psS : ℚ) * 0.15 + (eiS : ℚ) * 0.10 + (artS : ℚ) * 0.10))
    { overallScore := overall
      breakdown :=
        { communication := commS, confidence := confS, technicalKnowledge := techS,
          problemSolving := psS, emotionalIntelligence := eiS, articulation := artS }
      insights := generateInsights commS confS techS data.duration
      hiringRecommendation :=
        match overall with
        | none => .NO_HIRE
        | some o => getHiringRecommendation o }

/-! ### Helper lemmas -/

/-- Comparison of two nonnegative ratios, cross-multiplied (used to justify
the integer comparisons inside the echo detectors). -/
lemma ratio_lt_iff (p q m n : ℕ) (hq : 0 < q) (hn : 0 < n) :
    ((p : ℚ) / q < (m : ℚ) / n) ↔ p * n < q * m := by
  rw [div_lt_div_iff (by exact_mod_cast hq) (by exact_mod_cast hn), Nat.mul_comm q m]
  exact_mod_cast Iff.rfl

/-- The executable similarity test agrees with the rational comparison
`calculateSimilarity str1 str2 > 0.8` of the source. -/
lemma similarityExceeds_iff (str1 str2 : Str) :
    similarityExceeds str1 str2 = true ↔ (4 : ℚ)/5 < calculateSimilarity str1 str2 := by
  have key : ∀ (L d : ℕ), ¬ L = 0 →
      ((4 * (L : ℤ) < 5 * ((L : ℤ) - (d : ℤ))) ↔
        ((4 : ℚ)/5 < ((L : ℚ) - (d : ℚ))/(L : ℚ))) := by
    intro L d hL
    rw [div_lt_div_iff (by norm_num) (by exact_mod_cast Nat.pos_of_ne_zero hL)]
    constructor
    · intro h
      have h' : (4 : ℚ) * (L : ℚ) < 5 * ((L : ℚ) - (d : ℚ)) := by exact_mod_cast h
      linarith
    · intro h
      have h' : (4 : ℚ) * (L : ℚ) < 5 * ((L : ℚ) - (d : ℚ)) := by linarith
      exact_mod_cast h'
  simp only [similarityExceeds, calculateSimilarity]
  split_ifs with h1 h2 h3
  · norm_num
  · rw [decide_eq_true_eq]
    exact key _ _ h2
  · norm_num
  · rw [decide_eq_true_eq]
    exact key _ _ h3

/-- `jsRound` of a nonnegative rational is nonnegative. -/
lemma jsRound_nonneg {x : ℚ} (h : 0 ≤ x) : 0 ≤ jsRound x := by
  unfold jsRound
  exact Int.le_floor.mpr (by push_cast; linarith)

/-- `jsRound` respects an integer upper bound. -/
lemma jsRound_le {x : ℚ} {B : ℤ} (h : x ≤ (B : ℚ)) : jsRound x ≤ B := by
  have : jsRound x < B + 1 := by
    unfold jsRound
    exact Int.floor_lt.mpr (by push_cast; linarith)
  omega

/-! ### Claim theorems -/

/-- C1: the spec asserts that triggering two completion events back-to-back
while a reply is in flight produces exactly one oracle invocation, the
guard on `isAiSpeaking` rejecting the second trigger.  The code reads
`interviewState.isAiSpeaking` from the closure captured when the
transcription callback was registered; that snapshot stays `false`, so two
back-to-back triggers both pass the guard and TWO oracle requests are
issued. -/
theorem c1_stale_guard_two_oracle_calls :
    (fireTriggers initialGuardRuntime
      ["I am done now.".toList, "That is all, thank you.".toList]).oracleCalls = 2 := by
  decide

/-- C6: the completion heuristic schedules no reply timer for the input
"Yes." (4 characters, terminal punctuation, at the minimal floor), and for
every accepted text longer than 10 characters that ends in terminal
punctuation (with no reply in flight) it schedules the definite-completion
300 ms delay. -/
theorem c6_completion_floor_and_definite :
    handleFinalTranscript false [] ("Yes.".toList) = none ∧
      ∀ t : Str, endsWithTerminalPunct t = true → 10 < t.length →
        scheduleDelay false t = some 300 := by
  constructor
  · decide
  · intro t h1 h2
    have hdef : definitelyComplete t = true := by
      unfold definitelyComplete
      rw [h1, Bool.true_or]
    simp [scheduleDelay, hdef, h2]

set_option maxRecDepth 8000 in
/-- C6 witness: the definite-completion scenario sentence of the spec. -/
theorem c6_completion_floor_and_definite_witness :
    endsWithTerminalPunct ("I believe my background in backend systems and distributed databases makes me a strong fit, and I also led a team of five engineers.".toList) = true ∧
      10 < ("I believe my background in backend systems and distributed databases makes me a strong fit, and I also led a team of five engineers.".toList).length ∧
      scheduleDelay false ("I believe my background in backend systems and distributed databases makes me a strong fit, and I also led a team of five engineers.".toList) = some 300 :=
  ⟨by decide, by decide,
    c6_completion_floor_and_definite.2 _ (by decide) (by decide)⟩

/-- C7: any candidate utterance captured more than 3000 ms after the Agent
finished speaking is accepted by `isEchoLikely`, whatever its text. -/
theorem c7_outside_window_accepts (lastAi : Str) (enabled : Bool) (ts : ℤ)
    (t : Str) (h : 3000 < ts) :
    isEchoLikely lastAi enabled ts t = false := by
  unfold isEchoLikely
  split_ifs <;> first | rfl | omega

/-- C7 witness: full text overlap, 5 seconds after the Agent finished. -/
theorem c7_outside_window_accepts_witness :
    isEchoLikely ("hello there friend".toList) true 5000
      ("hello there friend".toList) = false :=
  c7_outside_window_accepts _ _ 5000 _ (by decide)

/-- C8 counterexample: a network-level oracle failure lands in the `catch`
block of `generateAIResponse`, which resets the speaking flag and resumes
transcription; no canned fallback is spoken, contradicting the claim that
every oracle failure proceeds to speaking a fallback. -/
theorem c8_counterexample_fetch_error_silent :
    reachesSpeaking (generateAIResponseOutcome .fetchFailure) = false := by
  decide

/-- C8 amended: the canned fallback reply is spoken exactly on the
blank-reply-text path (an OK response whose extracted text trims to
empty); fetch failures and non-OK statuses throw into the `catch` block and
resume listening silently, with no fallback spoken. -/
theorem c8_amended_fallback_only_blank :
    (∀ response message : Option Str,
        (trimStr (aiTextOf response message)).isEmpty = true →
        generateAIResponseOutcome (.okJson response message) =
          .speaks cannedFallbackReply) ∧
      generateAIResponseOutcome .fetchFailure = .silentResume ∧
      ∀ status : ℕ, generateAIResponseOutcome (.notOk status) = .silentResume := by
  refine ⟨?_, rfl, fun _ => rfl⟩
  intro response message h
  simp [generateAIResponseOutcome, h]

/-- C8 witness: a whitespace-only reply text takes the canned-fallback
branch. -/
theorem c8_amended_fallback_only_blank_witness :
    generateAIResponseOutcome (.okJson (some (" ".toList)) none) =
      .speaks cannedFallbackReply :=
  c8_amended_fallback_only_blank.1 (some (" ".toList)) none (by decide)

/-- C9 counterexample: the transcription Clear button resets the stored
transcript to the empty string, so the session transcript is not
append-only: the previous content "Hello" is not a prefix of the result. -/
theorem c9_counterexample_clear_button :
    ¬ ∃ u : Str, applyTranscriptOp ("Hello".toList) TranscriptOp.clearClick =
      "Hello".toList ++ u := by
  intro ⟨u, h⟩
  simp [applyTranscriptOp] at h

/-- C9 amended: every transcription-callback append extends the stored
transcript (the old transcript is a prefix of the new one); only the UI
Clear button and the start-transcription error handler reset it. -/
theorem c9_amended_accept_appends (s t : Str) :
    ∃ u : Str, applyTranscriptOp s (.acceptUtterance t) = s ++ u := by
  refine ⟨(if s.isEmpty then [] else [' ']) ++ t, ?_⟩
  simp [applyTranscriptOp, appendTranscript]

/-- C10: the hiring tier is determined by the overall score alone through
the fixed thresholds 85/70/55, and a higher score never gives a strictly
lower tier. -/
theorem c10_recommendation_thresholds_monotone (s : ℤ) :
    ((getHiringRecommendation s = .STRONG_HIRE) ↔ 85 ≤ s) ∧
      ((getHiringRecommendation s = .HIRE) ↔ 70 ≤ s ∧ s < 85) ∧
      ((getHiringRecommendation s = .LEAN_HIRE) ↔ 55 ≤ s ∧ s < 70) ∧
      ((getHiringRecommendation s = .NO_HIRE) ↔ s < 55) ∧
      ∀ s2 : ℤ, s ≤ s2 →
        recTierValue (getHiringRecommendation s) ≤
          recTierValue (getHiringRecommendation s2) := by
  refine ⟨?_, ?_, ?_, ?_, ?_⟩
  · unfold getHiringRecommendation
    split_ifs <;> simp_all <;> omega
  · unfold getHiringRecommendation
    split_ifs <;> simp_all <;> omega
  · unfold getHiringRecommendation
    split_ifs <;> simp_all <;> omega
  · unfold getHiringRecommendation
    split_ifs <;> simp_all <;> omega
  · intro s2 hle
    unfold getHiringRecommendation
    split_ifs <;> simp_all [recTierValue] <;> omega

/-- C10 witness: monotonicity applied at scores 60 and 90. -/
theorem c10_recommendation_thresholds_monotone_witness :
    recTierValue (getHiringRecommendation 60) ≤
      recTierValue (getHiringRecommendation 90) :=
  (c10_recommendation_thresholds_monotone 60).2.2.2.2 90 (by decide)

/-- A zero `matchRatio` follows from an empty fuzzy-match list. -/
lemma matchRatio007_of_no_match (lastAi transcript : Str)
    (h : (echoTokens transcript).filter (echoWordMatches (echoTokens lastAi)) = []) :
    matchRatio007 lastAi transcript = 0 := by
  simp only [matchRatio007]
  split_ifs
  · rfl
  · rw [h]
    simp

/-- A zero spec-level `matchRatio` follows from an empty match list. -/
lemma specEchoMatchRatioQ_of_no_match (agentText candidateText : Str)
    (h : (((splitWs candidateText).map stripPunct).filter (fun w => 2 < w.length)).filter
        (fun w => (((splitWs agentText).map stripPunct).filter
          (fun w => 2 < w.length)).contains w) = []) :
    specEchoMatchRatioQ agentText candidateText = 0 := by
  simp only [specEchoMatchRatioQ]
  split_ifs
  · rfl
  · rw [h]
    simp

/-- C3 counterexample: a candidate whose matchRatio in the sense of
section 4.2 (fraction of candidate tokens present among the Agent tokens,
exact membership after stripping punctuation and dropping short tokens) is
0 can be rejected by BOTH implementations inside the echo window.  The
inline detector of `speakAiResponse` rejects "it is abc" after the Agent
said "yes it is" (no long candidate token occurs among the Agent tokens,
but the adjacent pair "it is" appears verbatim in the Agent text and the
sequence criterion fires on its own); `isEchoLikely` rejects
"catalog saturday matters" after the Agent said "cat sat mat" (no
candidate token EQUALS an Agent token, but every candidate token fuzzily
matches one by substring containment, so its internal fuzzy ratio is 1 and
exceeds the 0.6 threshold). -/
theorem c3_counterexample_zero_spec_ratio_rejected :
    (specEchoMatchRatioQ ("yes it is".toList) ("it is abc".toList) = 0 ∧
      inlineEchoRejects 400 ("yes it is".toList) ("it is abc".toList) = true) ∧
    (specEchoMatchRatioQ ("cat sat mat".toList) ("catalog saturday matters".toList) = 0 ∧
      isEchoLikely ("cat sat mat".toList) true 400
        ("catalog saturday matters".toList) = true) :=
  ⟨⟨specEchoMatchRatioQ_of_no_match _ _ (by decide), by decide⟩,
    ⟨specEchoMatchRatioQ_of_no_match _ _ (by decide), by decide⟩⟩

/-- C3 amended: under the section 4.2 matchRatio neither implementation
satisfies the claim (see the counterexample).  What does hold and is
proved here: when the quantity `isEchoLikely` itself divides — its FUZZY
matchRatio `matchRatio007`, the fraction of candidate tokens matching an
Agent token by substring containment either way or by similarity above
0.8 — is 0, `isEchoLikely` accepts the candidate unconditionally. -/
theorem c3_amended_zero_fuzzy_ratio_accepts (lastAi transcript : Str)
    (enabled : Bool) (ts : ℤ)
    (h : matchRatio007 lastAi transcript = 0) :
    isEchoLikely lastAi enabled ts transcript = false := by
  simp only [isEchoLikely]
  split_ifs with h1 h2 h3
  · rfl
  · rfl
  · rfl
  · have hm : (echoTokens transcript).filter (echoWordMatches (echoTokens lastAi)) = [] := by
      unfold matchRatio007 at h
      rw [if_neg h3] at h
      rcases div_eq_zero_iff.mp h with hnum | hden
      · exact List.length_eq_zero.mp (by exact_mod_cast hnum)
      · exfalso
        apply h3
        have hlen : (echoTokens transcript).length = 0 := by exact_mod_cast hden
        simp [List.isEmpty_iff, ← List.length_eq_zero, hlen]
    simp [hm]

/-- C3 witness: no candidate token shares even a fuzzy match with the
Agent text, so the fuzzy matchRatio is 0 and the filter accepts. -/
theorem c3_amended_zero_fuzzy_ratio_accepts_witness :
    matchRatio007 ("abc".toList) ("xyz".toList) = 0 ∧
      isEchoLikely ("abc".toList) true 500 ("xyz".toList) = false :=
  have hz : matchRatio007 ("abc".toList) ("xyz".toList) = 0 :=
    matchRatio007_of_no_match _ _ (by decide)
  ⟨hz, c3_amended_zero_fuzzy_ratio_accepts _ _ true 500 hz⟩

/-- `consHead` never yields an empty split. -/
lemma consHead_ne_nil (c : Char) (L : List Str) : consHead c L ≠ [] := by
  cases L <;> simp [consHead]

/-- `splitOnSpace` never yields an empty list of segments. -/
lemma splitOnSpace_ne_nil (l : Str) : splitOnSpace l ≠ [] := by
  induction l with
  | nil => simp [splitOnSpace]
  | cons c rest ih =>
    by_cases hc : c = ' ' <;> simp [splitOnSpace, hc, consHead_ne_nil]

/-- Joining after prepending a character prepends the character. -/
lemma joinSpace_consHead (c : Char) (L : List Str) (h : L ≠ []) :
    joinSpace (consHead c L) = c :: joinSpace L := by
  match L with
  | [] => exact absurd rfl h
  | [w] => rfl
  | w :: w2 :: ws => rfl

/-- Join equation for a cons with a nonempty tail. -/
lemma joinSpace_cons_of_ne_nil (w : Str) (L : List Str) (h : L ≠ []) :
    joinSpace (w :: L) = w ++ ' ' :: joinSpace L := by
  match L with
  | [] => exact absurd rfl h
  | x :: xs => rfl

/-- Splitting on spaces and joining with spaces is the identity. -/
lemma joinSpace_splitOnSpace (l : Str) : joinSpace (splitOnSpace l) = l := by
  induction l with
  | nil => rfl
  | cons c rest ih =>
    by_cases hc : c = ' '
    · subst hc
      rw [show splitOnSpace (' ' :: rest) = [] :: splitOnSpace rest from by
        simp [splitOnSpace]]
      rw [joinSpace_cons_of_ne_nil _ _ (splitOnSpace_ne_nil rest)]
      simpa using ih
    · rw [show splitOnSpace (c :: rest) = consHead c (splitOnSpace rest) from by
        simp [splitOnSpace, hc]]
      rw [joinSpace_consHead _ _ (splitOnSpace_ne_nil rest), ih]

/-- C4 counterexample: `removeStuttering` is not idempotent.  On
"a b a b a b" one pass removes the first repeated block but resumes past
it, leaving "A b a b"; a second pass removes the remaining repetition and
returns "A b". -/
theorem c4_counterexample_not_idempotent :
    removeStuttering (removeStuttering ("a b a b a b".toList)) ≠
      removeStuttering ("a b a b a b".toList) := by
  decide

/-- C4 amended: `removeStuttering` is the identity (hence idempotent) on
every input that is already in normalized form: first character fixed by
`toUpper`, remainder fixed by `toLower`, and word list left unchanged by
both the adjacent-duplicate filter and the phrase-repetition scan.  In
general a second pass can shorten the output further (see the
counterexample). -/
theorem c4_amended_normalized_fixed_point (c : Char) (rest : Str)
    (hup : Char.toUpper c = c)
    (hlow : rest.map Char.toLower = rest)
    (hdedup : dedupAdj (splitOnSpace (toLowerStr (c :: rest))) =
      splitOnSpace (toLowerStr (c :: rest)))
    (hscan : scanLoop none (splitOnSpace (toLowerStr (c :: rest))) =
      splitOnSpace (toLowerStr (c :: rest))) :
    removeStuttering (c :: rest) = c :: rest ∧
      removeStuttering (removeStuttering (c :: rest)) =
        removeStuttering (c :: rest) := by
  have hfix : removeStuttering (c :: rest) = c :: rest := by
    unfold removeStuttering
    split_ifs with hlen
    · rfl
    · show Char.toUpper c ::
        (joinSpace (scanLoop none (dedupAdj (splitOnSpace (toLowerStr (c :: rest)))))).drop 1 =
        c :: rest
      rw [hdedup, hscan, joinSpace_splitOnSpace]
      have hl : toLowerStr (c :: rest) = Char.toLower c :: rest := by
        simp [toLowerStr, hlow]
      rw [hl, hup]
      rfl
  exact ⟨hfix, by rw [hfix]; exact hfix⟩

/-- C4 witness: a normalized sentence is a fixed point, hence idempotent. -/
theorem c4_amended_normalized_fixed_point_witness :
    removeStuttering ("Hello there friend today".toList) =
      "Hello there friend today".toList ∧
      removeStuttering (removeStuttering ("Hello there friend today".toList)) =
        removeStuttering ("Hello there friend today".toList) :=
  c4_amended_normalized_fixed_point 'H' ("ello there friend today".toList)
    (by decide) (by decide) (by decide) (by decide)

/-- C5: with an empty transcript (zero words) and no emotion samples, the
scoring engine returns the all-zero snapshot whose insights list is exactly
the explicit no-data entry. -/
theorem c5_empty_data_zero_snapshot (data : InterviewData)
    (hw : wordsOf data.transcription = []) (he : data.emotions = []) :
    generateDynamicScore data =
      { overallScore := some 0
        breakdown :=
          { communication := some 0, confidence := 0, technicalKnowledge := 0,
            problemSolving := 0, emotionalIntelligence := 0, articulation := 0 }
        insights := ["No interview data available for analysis".toList]
        hiringRecommendation := .NO_HIRE } ∧
      "No interview data available for analysis".toList ∈
        (generateDynamicScore data).insights := by
  have h1 : generateDynamicScore data =
      { overallScore := some 0
        breakdown :=
          { communication := some 0, confidence := 0, technicalKnowledge := 0,
            problemSolving := 0, emotionalIntelligence := 0, articulation := 0 }
        insights := ["No interview data available for analysis".toList]
        hiringRecommendation := .NO_HIRE } := by
    unfold generateDynamicScore getFallbackScoring
    simp [hw, he]
  refine ⟨h1, ?_⟩
  rw [h1]
  simp

/-- C5 witness: the literally empty interview. -/
theorem c5_empty_data_zero_snapshot_witness :
    generateDynamicScore { transcription := [], emotions := [], duration := 0 } =
      { overallScore := some 0
        breakdown :=
          { communication := some 0, confidence := 0, technicalKnowledge := 0,
            problemSolving := 0, emotionalIntelligence := 0, articulation := 0 }
        insights := ["No interview data available for analysis".toList]
        hiringRecommendation := .NO_HIRE } ∧
      "No interview data available for analysis".toList ∈
        (generateDynamicScore { transcription := [], emotions := [], duration := 0 }).insights :=
  c5_empty_data_zero_snapshot _ (by decide) (by decide)

/-- C2 counterexample: for an input with an empty transcript but a nonempty
emotion buffer the guard of `generateDynamicScore` is not taken, and the
communication sub-score divides the unique-word count by the zero word
count: `0 / 0 = NaN` in JS.  The `NaN` propagates into the weighted overall
score, so neither the communication sub-score nor the overall score is an
integer in [0, 100]. -/
theorem c2_counterexample_nan_overall :
    (generateDynamicScore
      { transcription := []
        emotions := [{ emotion := "happy".toList, score := 1/2, timestamp := 0 }]
        duration := 60 }).overallScore = none ∧
    (generateDynamicScore
      { transcription := []
        emotions := [{ emotion := "happy".toList, score := 1/2, timestamp := 0 }]
        duration := 60 }).breakdown.communication = none :=
  ⟨rfl, rfl⟩

/-- Communication sub-score bounds on transcripts with at least one word. -/
lemma calculateCommunicationScore_bounds (data : InterviewData)
    (hw : wordsOf data.transcription ≠ []) :
    ∃ c : ℤ, calculateCommunicationScore data = some c ∧ 0 ≤ c ∧ c ≤ 100 := by
  unfold calculateCommunicationScore
  split_ifs with he
  · exact absurd (by simpa [List.isEmpty_iff] using he) hw
  · refine ⟨_, rfl, ?_, ?_⟩
    · refine jsRound_nonneg ?_
      have h1 : (0 : ℚ) ≤ commWordScoreQ data := by
        unfold commWordScoreQ
        exact mul_nonneg (le_min (by positivity) (by norm_num)) (by norm_num)
      have h2 : (0 : ℚ) ≤ commStructureQ data := by
        unfold commStructureQ
        split_ifs <;> norm_num
      have h3 : (0 : ℚ) ≤ commDiversityQ data := by
        unfold commDiversityQ
        exact mul_nonneg (le_min (by positivity) (by norm_num)) (by norm_num)
      exact le_min (by linarith) (by norm_num)
    · refine jsRound_le ?_
      push_cast
      exact min_le_right _ _

/-- Confidence sub-score bounds. -/
lemma calculateConfidenceScore_bounds (data : InterviewData) :
    0 ≤ calculateConfidenceScore data ∧ calculateConfidenceScore data ≤ 100 := by
  unfold calculateConfidenceScore
  split_ifs
  · norm_num
  · constructor
    · exact jsRound_nonneg (le_max_right _ _)
    · refine jsRound_le ?_
      push_cast
      exact max_le (le_trans (min_le_right _ _) (by norm_num)) (by norm_num)

/-- Technical sub-score bounds. -/
lemma calculateTechnicalScore_bounds (data : InterviewData) :
    0 ≤ calculateTechnicalScore data ∧ calculateTechnicalScore data ≤ 100 := by
  simp only [calculateTechnicalScore]
  constructor
  · have h1 : (0 : ℤ) ≤ min ((keywordHits technicalKeywords (toLowerStr data.transcription) : ℤ) * 5) 40 :=
      le_min (by positivity) (by norm_num)
    have h2 : (0 : ℤ) ≤ min ((keywordHits methodologyKeywords (toLowerStr data.transcription) : ℤ) * 8) 30 :=
      le_min (by positivity) (by norm_num)
    have h3 : (0 : ℤ) ≤ min ((keywordHits softSkillKeywords (toLowerStr data.transcription) : ℤ) * 5) 30 :=
      le_min (by positivity) (by norm_num)
    exact le_min (by linarith) (by norm_num)
  · exact min_le_right _ _

/-- Problem-solving sub-score bounds. -/
lemma calculateProblemSolvingScore_bounds (data : InterviewData) :
    0 ≤ calculateProblemSolvingScore data ∧ calculateProblemSolvingScore data ≤ 100 := by
  simp only [calculateProblemSolvingScore]
  constructor
  · have h1 : (0 : ℤ) ≤ min ((keywordHits problemSolvingIndicators (toLowerStr data.transcription) : ℤ) * 4) 50 :=
      le_min (by positivity) (by norm_num)
    have h2 : (0 : ℤ) ≤ min ((keywordHits structuredThinkingPhrases (toLowerStr data.transcription) : ℤ) * 8) 30 :=
      le_min (by positivity) (by norm_num)
    have h3 : (0 : ℤ) ≤ min ((countMatchesAny examplePhrases (toLowerStr data.transcription) : ℤ) * 10) 20 :=
      le_min (by positivity) (by norm_num)
    exact le_min (by linarith) (by norm_num)
  · exact min_le_right _ _

/-- Emotional-intelligence sub-score bounds. -/
lemma calculateEmotionalIntelligenceScore_bounds (data : InterviewData) :
    0 ≤ calculateEmotionalIntelligenceScore data ∧
      calculateEmotionalIntelligenceScore data ≤ 100 := by
  unfold calculateEmotionalIntelligenceScore
  split_ifs with he
  · norm_num
  · have hne : data.emotions ≠ [] := by simpa [List.isEmpty_iff] using he
    have hlen : (0 : ℚ) < (data.emotions.length : ℚ) := by
      exact_mod_cast List.length_pos.mpr hne
    have hvar : 0 ≤ emotionVarianceQ data.emotions := by
      unfold emotionVarianceQ
      refine div_nonneg ?_ hlen.le
      refine List.sum_nonneg ?_
      intro x hx
      obtain ⟨e, _, rfl⟩ := List.mem_map.mp hx
      positivity
    have hstab0 : 0 ≤ eiStabilityQ data.emotions := le_max_left _ _
    have hstab50 : eiStabilityQ data.emotions ≤ 50 := by
      unfold eiStabilityQ
      have hv : 0 ≤ emotionVarianceQ data.emotions * 100 :=
        mul_nonneg hvar (by norm_num)
      exact max_le (by norm_num) (by linarith)
    have hfrac0 : 0 ≤ labelFracQ positiveLabels data.emotions := by
      unfold labelFracQ
      positivity
    have hfrac1 : labelFracQ positiveLabels data.emotions ≤ 1 := by
      unfold labelFracQ
      rw [div_le_one hlen]
      exact_mod_cast List.length_filter_le _ _
    have hpos0 : 0 ≤ eiPositivityQ data.emotions := by
      unfold eiPositivityQ
      exact mul_nonneg hfrac0 (by norm_num)
    have hpos50 : eiPositivityQ data.emotions ≤ 50 := by
      unfold eiPositivityQ
      nlinarith [hfrac1, hfrac0]
    constructor
    · exact jsRound_nonneg (by linarith)
    · refine jsRound_le ?_
      push_cast
      linarith

/-- Articulation sub-score bounds. -/
lemma calculateArticulationScore_bounds (data : InterviewData) :
    0 ≤ calculateArticulationScore data ∧ calculateArticulationScore data ≤ 100 := by
  simp only [calculateArticulationScore]
  split_ifs with he
  · norm_num
  · have hf0 : 0 ≤ artFillerPenaltyQ (wordsOf data.transcription) := by
      unfold artFillerPenaltyQ
      exact le_min (by positivity) (by norm_num)
    have hr0 : 0 ≤ artRepPenaltyQ (wordsOf data.transcription) := by
      unfold artRepPenaltyQ
      exact le_min (by positivity) (by norm_num)
    constructor
    · exact jsRound_nonneg (le_max_right _ _)
    · refine jsRound_le ?_
      push_cast
      exact max_le (by linarith) (by norm_num)

/-- C2 amended: whenever the transcript contains at least one word (or the
input is entirely empty, where the fallback zero snapshot applies), the
communication sub-score is a genuine integer, every sub-score lies in
[0, 100], and the overall score is exactly the JS rounding of the weighted
sum with weights 0.25 / 0.20 / 0.20 / 0.15 / 0.10 / 0.10, itself in
[0, 100].  For a zero-word transcript with a nonempty emotion buffer the
property fails (see the counterexample): communication and overall are
`NaN`. -/
theorem c2_amended_weighted_overall (data : InterviewData)
    (h : wordsOf data.transcription ≠ [] ∨ data.emotions = []) :
    ∃ c o : ℤ,
      (generateDynamicScore data).breakdown.communication = some c ∧
      (generateDynamicScore data).overallScore = some o ∧
      o = jsRound ((c : ℚ) * 0.25 +
        ((generateDynamicScore data).breakdown.confidence : ℚ) * 0.20 +
        ((generateDynamicScore data).breakdown.technicalKnowledge : ℚ) * 0.20 +
        ((generateDynamicScore data).breakdown.problemSolving : ℚ) * 0.15 +
        ((generateDynamicScore data).breakdown.emotionalIntelligence : ℚ) * 0.10 +
        ((generateDynamicScore data).breakdown.articulation : ℚ) * 0.10) ∧
      (0 ≤ c ∧ c ≤ 100) ∧
      (0 ≤ (generateDynamicScore data).breakdown.confidence ∧
        (generateDynamicScore data).breakdown.confidence ≤ 100) ∧
      (0 ≤ (generateDynamicScore data).breakdown.technicalKnowledge ∧
        (generateDynamicScore data).breakdown.technicalKnowledge ≤ 100) ∧
      (0 ≤ (generateDynamicScore data).breakdown.problemSolving ∧
        (generateDynamicScore data).breakdown.problemSolving ≤ 100) ∧
      (0 ≤ (generateDynamicScore data).breakdown.emotionalIntelligence ∧
        (generateDynamicScore data).breakdown.emotionalIntelligence ≤ 100) ∧
      (0 ≤ (generateDynamicScore data).breakdown.articulation ∧
        (generateDynamicScore data).breakdown.articulation ≤ 100) ∧
      (0 ≤ o ∧ o ≤ 100) := by
  by_cases hw : wordsOf data.transcription = []
  · rcases h with h | he
    · exact absurd hw h
    · have hr : generateDynamicScore data =
          { overallScore := some 0
            breakdown :=
              { communication := some 0, confidence := 0, technicalKnowledge := 0,
                problemSolving := 0, emotionalIntelligence := 0, articulation := 0 }
            insights := ["No interview data available for analysis".toList]
            hiringRecommendation := .NO_HIRE } := by
        unfold generateDynamicScore getFallbackScoring
        simp [hw, he]
      rw [hr]
      refine ⟨0, 0, rfl, rfl, ?_, by norm_num, by norm_num, by norm_num, by norm_num,
        by norm_num, by norm_num, by norm_num⟩
      have hzero : ((0 : ℤ) : ℚ) * 0.25 + ((0 : ℤ) : ℚ) * 0.20 + ((0 : ℤ) : ℚ) * 0.20 +
          ((0 : ℤ) : ℚ) * 0.15 + ((0 : ℤ) : ℚ) * 0.10 + ((0 : ℤ) : ℚ) * 0.10 = 0 := by
        norm_num
      rw [hzero]
      unfold jsRound
      norm_num
  · have hguard : ¬((wordsOf data.transcription).isEmpty ∧ data.emotions.isEmpty) := by
      intro hcon
      exact hw (by simpa [List.isEmpty_iff] using hcon.1)
    obtain ⟨c, hc, hc0, hc100⟩ := calculateCommunicationScore_bounds data hw
    have hcomm : (generateDynamicScore data).breakdown.communication = some c := by
      unfold generateDynamicScore
      rw [if_neg hguard]
      simpa using hc
    have hbconf : (generateDynamicScore data).breakdown.confidence =
        calculateConfidenceScore data := by
      unfold generateDynamicScore
      rw [if_neg hguard]
    have hbtech : (generateDynamicScore data).breakdown.technicalKnowledge =
        calculateTechnicalScore data := by
      unfold generateDynamicScore
      rw [if_neg hguard]
    have hbps : (generateDynamicScore data).breakdown.problemSolving =
        calculateProblemSolvingScore data := by
      unfold generateDynamicScore
      rw [if_neg hguard]
    have hbei : (generateDynamicScore data).breakdown.emotionalIntelligence =
        calculateEmotionalIntelligenceScore data := by
      unfold generateDynamicScore
      rw [if_neg hguard]
    have hbart : (generateDynamicScore data).breakdown.articulation =
        calculateArticulationScore data := by
      unfold generateDynamicScore
      rw [if_neg hguard]
    have hover : (generateDynamicScore data).overallScore =
        some (jsRound ((c : ℚ) * 0.25 +
          ((calculateConfidenceScore data : ℤ) : ℚ) * 0.20 +
          ((calculateTechnicalScore data : ℤ) : ℚ) * 0.20 +
          ((calculateProblemSolvingScore data : ℤ) : ℚ) * 0.15 +
          ((calculateEmotionalIntelligenceScore data : ℤ) : ℚ) * 0.10 +
          ((calculateArticulationScore data : ℤ) : ℚ) * 0.10)) := by
      unfold generateDynamicScore
      rw [if_neg hguard]
      simp [hc]
    obtain ⟨hconf0, hconf100⟩ := calculateConfidenceScore_bounds data
    obtain ⟨htech0, htech100⟩ := calculateTechnicalScore_bounds data
    obtain ⟨hps0, hps100⟩ := calculateProblemSolvingScore_bounds data
    obtain ⟨hei0, hei100⟩ := calculateEmotionalIntelligenceScore_bounds data
    obtain ⟨hart0, hart100⟩ := calculateArticulationScore_bounds data
    have qc0 : (0 : ℚ) ≤ (c : ℚ) := by exact_mod_cast hc0
    have qc100 : ((c : ℤ) : ℚ) ≤ 100 := by exact_mod_cast hc100
    have qconf0 : (0 : ℚ) ≤ ((calculateConfidenceScore data : ℤ) : ℚ) := by
      exact_mod_cast hconf0
    have qconf100 : ((calculateConfidenceScore data : ℤ) : ℚ) ≤ 100 := by
      exact_mod_cast hconf100
    have qtech0 : (0 : ℚ) ≤ ((calculateTechnicalScore data : ℤ) : ℚ) := by
      exact_mod_cast htech0
    have qtech100 : ((calculateTechnicalScore data : ℤ) : ℚ) ≤ 100 := by
      exact_mod_cast htech100
    have qps0 : (0 : ℚ) ≤ ((calculateProblemSolvingScore data : ℤ) : ℚ) := by
      exact_mod_cast hps0
    have qps100 : ((calculateProblemSolvingScore data : ℤ) : ℚ) ≤ 100 := by
      exact_mod_cast hps100
    have qei0 : (0 : ℚ) ≤ ((calculateEmotionalIntelligenceScore data : ℤ) : ℚ) := by
      exact_mod_cast hei0
    have qei100 : ((calculateEmotionalIntelligenceScore data : ℤ) : ℚ) ≤ 100 := by
      exact_mod_cast hei100
    have qart0 : (0 : ℚ) ≤ ((calculateArticulationScore data : ℤ) : ℚ) := by
      exact_mod_cast hart0
    have qart100 : ((calculateArticulationScore data : ℤ) : ℚ) ≤ 100 := by
      exact_mod_cast hart100
    refine ⟨c, _, hcomm, hover, ?_, ⟨hc0, hc100⟩, ?_, ?_, ?_, ?_, ?_, ?_⟩
    · rw [hbconf, hbtech, hbps, hbei, hbart]
    · rw [hbconf]
      exact ⟨hconf0, hconf100⟩
    · rw [hbtech]
      exact ⟨htech0, htech100⟩
    · rw [hbps]
      exact ⟨hps0, hps100⟩
    · rw [hbei]
      exact ⟨hei0, hei100⟩
    · rw [hbart]
      exact ⟨hart0, hart100⟩
    · constructor
      · refine jsRound_nonneg ?_
        nlinarith [qc0, qconf0, qtech0, qps0, qei0, qart0]
      · refine jsRound_le ?_
        push_cast
        nlinarith [qc100, qconf100, qtech100, qps100, qei100, qart100,
          qc0, qconf0, qtech0, qps0, qei0, qart0]

/-- C2 witness: a short real transcript with no emotion samples. -/
theorem c2_amended_weighted_overall_witness :
    ∃ c o : ℤ,
      (generateDynamicScore
        { transcription := "hello world.".toList, emotions := [], duration := 60 }).breakdown.communication = some c ∧
      (generateDynamicScore
        { transcription := "hello world.".toList, emotions := [], duration := 60 }).overallScore = some o ∧
      o = jsRound ((c : ℚ) * 0.25 +
        ((generateDynamicScore
          { transcription := "hello world.".toList, emotions := [], duration := 60 }).breakdown.confidence : ℚ) * 0.20 +
        ((generateDynamicScore
          { transcription := "hello world.".toList, emotions := [], duration := 60 }).breakdown.technicalKnowledge : ℚ) * 0.20 +
        ((generateDynamicScore
          { transcription := "hello world.".toList, emotions := [], duration := 60 }).breakdown.problemSolving : ℚ) * 0.15 +
        ((generateDynamicScore
          { transcription := "hello world.".toList, emotions := [], duration := 60 }).breakdown.emotionalIntelligence : ℚ) * 0.10 +
        ((generateDynamicScore
          { transcription := "hello world.".toList, emotions := [], duration := 60 }).breakdown.articulation : ℚ) * 0.10) ∧
      (0 ≤ c ∧ c ≤ 100) ∧
      (0 ≤ (generateDynamicScore
          { transcription := "hello world.".toList, emotions := [], duration := 60 }).breakdown.confidence ∧
        (generateDynamicScore
          { transcription := "hello world.".toList, emotions := [], duration := 60 }).breakdown.confidence ≤ 100) ∧
      (0 ≤ (generateDynamicScore
          { transcription := "hello world.".toList, emotions := [], duration := 60 }).breakdown.technicalKnowledge ∧
        (generateDynamicScore
          { transcription := "hello world.".toList, emotions := [], duration := 60 }).breakdown.technicalKnowledge ≤ 100) ∧
      (0 ≤ (generateDynamicScore
          { transcription := "hello world.".toList, emotions := [], duration := 60 }).breakdown.problemSolving ∧
        (generateDynamicScore
          { transcription := "hello world.".toList, emotions := [], duration := 60 }).breakdown.problemSolving ≤ 100) ∧
      (0 ≤ (generateDynamicScore
          { transcription := "hello world.".toList, emotions := [], duration := 60 }).breakdown.emotionalIntelligence ∧
        (generateDynamicScore
          { transcription := "hello world.".toList, emotions := [], duration := 60 }).breakdown.emotionalIntelligence ≤ 100) ∧
      (0 ≤ (generateDynamicScore
          { transcription := "hello world.".toList, emotions := [], duration := 60 }).breakdown.articulation ∧
        (generateDynamicScore
          { transcription := "hello world.".toList, emotions := [], duration := 60 }).breakdown.articulation ≤ 100) ∧
      (0 ≤ o ∧ o ≤ 100) :=
  c2_amended_weighted_overall
    { transcription := "hello world.".toList, emotions := [], duration := 60 }
    (Or.inl (by decide))
